import Mathlib

/-!
A verification development for the Lua bridge of the mc (Midnight Commander)
scripting fork: the safe-invocation protocol (`lib/lua/capi-safecall.c`,
`lib/lua/capi.c`) and the widget/proxy identity bridge (`lib/lua/ui-impl.c`).

The C code is embedded shallowly: the Lua operand stack is a `List Value`
(head = top of stack), Lua tables live in an explicit heap indexed by
allocation id (so proxy identity is observable), the registry and the
`ui.weak` table are association lists, and the process-wide statics
(`first_error`, UI readiness, the background flag) are fields of `LuaState`.

Calls into script code (whose behavior is defined by Lua sources, not by the
C under verification) are parameterized by an outcome oracle: either a list
of result values or a raised error value.  Native-level non-local exits are
made explicit in the type: `Except Failure` distinguishes a propagating Lua
error (longjmp past the caller) from a fatal abort (`g_error` in the stack
guards, `exit` on internal inconsistency).  A C call wrapped in `lua_pcall`
is translated to a catching combinator; an unwrapped call would surface as
`Except.error`, so "no error escapes" is a provable property, not a typing
accident.
-/

set_option autoImplicit false

deriving instance DecidableEq for Except

namespace McLua

/-- A Lua value.  Tables and functions are references into a heap / are
opaque ids, so that object identity (crucial for the proxy bridge) is
observable.  Numbers are integral: the C under verification never computes
with them, they only occur as possible error values. -/
inductive Value where
  | nil
  | boolean (b : Bool)
  | num (n : Int)
  | str (s : String)
  | lightuserdata (p : Nat)
  | table (id : Nat)
  | func (id : Nat)
  deriving DecidableEq, Repr

/-- `lua_toboolean`: everything is true except `nil` and `false`. -/
def toboolean : Value → Bool
  | .nil => false
  | .boolean b => b
  | _ => true

/-- `lua_tostring`: strings convert to themselves, numbers to their decimal
form, everything else to nothing (NULL). -/
def tostringOpt : Value → Option String
  | .str s => some s
  | .num n => some (toString n)
  | _ => none

/-- `lua_isstring`: true for strings and numbers (which convert). -/
def lua_isstring (v : Value) : Bool :=
  (tostringOpt v).isSome

/-- `lua_isfunction`. -/
def Value.isFunction : Value → Bool
  | .func _ => true
  | _ => false

/-- Raw contents of one Lua table: its fields, the name of the metatable
installed via `luaL_setmetatable`, and whether `luaMC_enable_table_gc` ran
on it. -/
structure TableData where
  fields : List (Value × Value) := []
  metaName : String := ""
  gcEnabled : Bool := false
  deriving DecidableEq, Repr

/-- Lua table read: the value bound to a key, or `nil` when absent. -/
def tableGet (t : List (Value × Value)) (k : Value) : Value :=
  match t.find? (fun p => p.1 == k) with
  | some p => p.2
  | none => .nil

/-- Lua table write: binding a key to `nil` removes it, anything else
replaces the previous binding. -/
def tableSet (t : List (Value × Value)) (k v : Value) : List (Value × Value) :=
  if v = Value.nil then t.filter (fun p => !(p.1 == k))
  else (k, v) :: t.filter (fun p => !(p.1 == k))

/-- The table heap: allocation id to table contents. -/
abbrev Heap := List (Nat × TableData)

/-- Contents of the table with the given id (empty if unallocated). -/
def heapGet (h : Heap) (id : Nat) : TableData :=
  match h.find? (fun p => p.1 == id) with
  | some p => p.2
  | none => {}

/-- `lua_rawset` of one field on the table with the given id. -/
def heapSetField (h : Heap) (id : Nat) (k v : Value) : Heap :=
  h.map (fun p => if p.1 == id then (p.1, { p.2 with fields := tableSet p.2.fields k v }) else p)

/-- `luaMC_rawsetfield` on a table value (call sites only ever pass tables;
on anything else the raw write is a no-op in the model). -/
def heap_rawsetfield (h : Heap) (v : Value) (k fv : Value) : Heap :=
  match v with
  | .table id => heapSetField h id k fv
  | _ => h

/-- `lua_getfield` on a value: field of a table, `nil` otherwise.  Model
tables carry their methods as direct fields (the `__index` inheritance
chains are installed by bootstrap Lua code, outside the C under
verification). -/
def lua_getfield (h : Heap) (v : Value) (key : String) : Value :=
  match v with
  | .table id => tableGet (heapGet h id).fields (.str key)
  | _ => .nil

/-- Severity of a `message ()` box (`D_NORMAL` / `D_ERROR`). -/
inductive Sev where
  | dNormal
  | dError
  deriving DecidableEq, Repr

/-- Observable user-visible actions of the bridge, logged in order. -/
inductive Event where
  /-- A script-registered "fancy" display callback ran to completion on the
  given error object (`capi-safecall.c:display_error`, fancy branch). -/
  | fancyDisplay (cbName : String) (errObj : Value)
  /-- `message (sev, title, "%s", text)` -/
  | messageBox (sev : Sev) (title : String) (text : String)
  /-- `fprintf (stderr, tag ++ text)` -/
  | stderrLine (tag : String) (text : String)
  /-- `luaMC_pingmeta (L, -1, "init")` on a freshly created proxy. -/
  | initPing (id : Nat)
  deriving DecidableEq, Repr

/-- A native-level non-local exit. -/
inductive Failure where
  /-- A Lua error propagating past the function (a `longjmp` in C). -/
  | luaError (e : Value)
  /-- A fatal, unrecoverable abort: `g_error` in the stack guards, or the
  `exit (EXIT_FAILURE)` on internal inconsistency. -/
  | fatal (msg : String)
  deriving DecidableEq, Repr

/-- The whole interpreter-plus-bridge state: the shared operand stack
(head = top), the table heap and its allocation counter, the Lua registry
(string-keyed part, used for the system-callback registry), the `ui.weak`
identity table, the static `first_error` slot, the two environment flags
read by `display_error`, the log of user-visible events, and a counter of
how many times the linear "search hard" scan of `ui.weak` ran. -/
structure LuaState where
  stack : List Value := []
  heap : Heap := []
  nextId : Nat := 0
  registry : List (String × Value) := []
  uiWeak : List (Value × Value) := []
  firstError : Option String := none
  uiReady : Bool := false
  weAreBackground : Bool := false
  events : List Event := []
  hardSearches : Nat := 0
  deriving DecidableEq, Repr

/-- Outcome of actually running a staged script function: its results, or
the error value it raised.  (Script code is outside the C under
verification, so its behavior is an oracle.) -/
abbrev CallOutcome := Except Value (List Value)

/-- Whether the underlying protected call will report success. -/
def CallOutcome.succeeded : CallOutcome → Bool
  | .ok _ => true
  | .error _ => false

/-! ## The safe-invocation protocol (`lib/lua/capi-safecall.c`, `lib/lua/capi.c`) -/

/-- `luaMC_get_system_callback` (`capi.c`): looks the name up, with the
reserved key pattern, in the registry; a missing or `nil` entry is a miss.
(The C pushes the found callback on the stack; the model hands it back
directly, every call site consumes it immediately.) -/
def luaMC_get_system_callback (reg : List (String × Value)) (name : String) : Option Value :=
  match reg.find? (fun p => p.1 == "__mc_system_callback__" ++ name) with
  | some p => if p.2 = Value.nil then none else some p.2
  | none => none

/-- `luaMC_isabort` (`capi-safecall.c`): an abort is a table whose `abort`
field is truthy. -/
def luaMC_isabort (h : Heap) (v : Value) : Bool :=
  match v with
  | .table id => toboolean (tableGet (heapGet h id).fields (.str "abort"))
  | _ => false

/-- `lua_pcall` around an already-staged zero-result call: the callee's
error, if any, is caught here and does not propagate; the return value says
whether the call succeeded.  (An unprotected `lua_call` would instead be
translated as propagating the error value in `Except`.) -/
def lua_pcall0 (outcome : Except Value Unit) : Bool :=
  match outcome with
  | .ok _ => true
  | .error _ => false

/-- Which of the two simple C display functions `display_error` received as
its `simple` argument. -/
inductive SimpleDisplayFn where
  | errFn
  | abortFn
  deriving DecidableEq, Repr

/-- The user-visible output of `display_error__simple` /
`display_abort__simple` (`capi-safecall.c`): the error text - for the abort
variant, the `message` field of the abort table - goes to a message box
when the UI is ready (`ui`), else to stderr; a value with no string
conversion displays nothing. -/
def simple_display_events : SimpleDisplayFn → Bool → Heap → Value → List Event
  | .errFn, ui, _h, v =>
    match tostringOpt v with
    | some m =>
      [if ui then .messageBox .dError "Lua error" m
       else .stderrLine "LUA EXCEPTION: " m]
    | none => []
  | .abortFn, ui, h, v =>
    match tostringOpt (lua_getfield h v "message") with
    | some m =>
      [if ui then .messageBox .dNormal "Abort" m
       else .stderrLine "ABORT: " m]
    | none => []

/-- Per-invocation oracle for the two protected sub-calls `display_error`
makes: the outcome of the script-registered fancy callback, and of the
`lua_pcall` around the simple C display function (whose own failure modes -
out of memory, misbehaving metamethods - are environmental). -/
structure DisplayOracle where
  fancy : Except Value Unit := .ok ()
  simple : Except Value Unit := .ok ()
  deriving Repr

/-- The events `display_error` (`capi-safecall.c:50`) produces, following
its control flow literally: the simple path is forced when in background or
when the UI is not ready; otherwise the fancy system callback is looked up
and run under `lua_pcall`, falling back to the simple path when it is
missing or fails; the simple C function also runs under `lua_pcall` and a
failure of it is discarded (`lua_pop`). -/
def display_error_events (bg ui : Bool) (reg : List (String × Value)) (h : Heap)
    (errObj : Value) (fancy : String) (sfn : SimpleDisplayFn) (orc : DisplayOracle) :
    List Event :=
  let useSimple0 := bg || !ui
  let (fancyEvs, useSimple) :=
    if useSimple0 then ([], true)
    else
      match luaMC_get_system_callback reg fancy with
      | some _cb =>
        if lua_pcall0 orc.fancy then ([Event.fancyDisplay fancy errObj], false)
        else ([], true)
      | none => ([], true)
  if useSimple then
    fancyEvs ++ (if lua_pcall0 orc.simple then simple_display_events sfn ui h errObj else [])
  else fancyEvs

/-- `display_error` (`capi-safecall.c:50`).  It only appends display events:
the error object stays at the top of the stack (every push in the C body is
matched by a pop), and no error escapes because both sub-calls are wrapped
in `lua_pcall`. -/
def display_error (st : LuaState) (errObj : Value) (fancy : String)
    (sfn : SimpleDisplayFn) (orc : DisplayOracle) : LuaState :=
  { st with events := st.events ++
      display_error_events st.weAreBackground st.uiReady st.registry st.heap errObj fancy sfn orc }

/-- `record_first_error` (`capi-safecall.c:121`): `g_strdup` the stack top
into the static slot, only when the slot is still empty and the value is a
string. -/
def record_first_error (st : LuaState) : LuaState :=
  match st.stack with
  | v :: _ =>
    if st.firstError = none ∧ lua_isstring v then { st with firstError := tostringOpt v }
    else st
  | [] => st

/-- `handle_error` (`capi-safecall.c:143`), on the error value at the top of
the stack: aborts go to the friendly display and are not recorded;
everything else is coerced to a string (a fixed placeholder when it has no
string form), recorded into the first-error slot if empty, and displayed via
the error path; finally the error value is popped. -/
def handle_error (st : LuaState) (orc : DisplayOracle) : Except Failure LuaState :=
  match st.stack with
  | [] => .error (.fatal "handle_error: no error value on the stack")
  | errObj :: rest =>
    if luaMC_isabort st.heap errObj then
      let st1 := display_error st errObj "devel::display_abort" .abortFn orc
      .ok { st1 with stack := rest }
    else
      let (st1, errObj1) :=
        if lua_isstring errObj then (st, errObj)
        else ({ st with stack := Value.str "(error object is not a string)" :: rest },
              Value.str "(error object is not a string)")
      let st2 := record_first_error st1
      let st3 := display_error st2 errObj1 "devel::display_error" .errFn orc
      .ok { st3 with stack := rest }

/-- `mc_lua_replay_first_error` (`capi-safecall.c:133`): re-push the
recorded first error and run the full display path on it again. -/
def mc_lua_replay_first_error (st : LuaState) (orc : DisplayOracle) :
    Except Failure LuaState :=
  match st.firstError with
  | some msg => handle_error { st with stack := Value.str msg :: st.stack } orc
  | none => .ok st

/-- The error handler `_luaMC_pcall__errfunc` installs for `lua_pcall`
(`capi.c`): `debug.traceback (msg, 2)` appends the call-trace to any error
value with a string form and returns other values unchanged.  `tb` is the
trace text the Lua runtime would produce at the point of failure. -/
def traceback_errfunc (tb : String) (e : Value) : Value :=
  match tostringOpt e with
  | some s => .str (s ++ tb)
  | none => e

/-- `lua_pcall` adjusts the callee's actual results to exactly `nresults`
values: extras are discarded, missing ones become `nil`. -/
def adjustResults (nresults : Nat) (rs : List Value) : List Value :=
  rs.take nresults ++ List.replicate (nresults - rs.length) Value.nil

/-- `luaMC_pcall` (`capi.c:551`): stage the traceback error handler under
the function (push + `lua_insert` at `errfunc_idx`), run `lua_pcall` with
it, and remove it again (`lua_remove`).  On success the function and its
`nargs` arguments are replaced by exactly `nresults` values; on failure
they are replaced by the single handler-processed error value.  The
internal stack guard reduces to an identity under these semantics; calling
with fewer than `nargs + 1` staged values is API misuse, which the guard
turns into a fatal abort. -/
def luaMC_pcall (st : LuaState) (nargs nresults : Nat) (outcome : CallOutcome)
    (tb : String) : Except Failure (Bool × LuaState) :=
  if nargs + 1 ≤ st.stack.length then
    match outcome with
    | .ok rs =>
      .ok (true, { st with stack := (adjustResults nresults rs).reverse ++ st.stack.drop (nargs + 1) })
    | .error e =>
      .ok (false, { st with stack := traceback_errfunc tb e :: st.stack.drop (nargs + 1) })
  else .error (.fatal "Lua stack error")

/-- `LUAMC_UNGUARD_BY` (`capi.h:245`): compare the current stack depth with
the depth recorded at `LUAMC_GUARD` plus the expected delta; a mismatch is
`g_error`, a fatal abort. -/
def unguard_by (top : Nat) (delta : Int) (st : LuaState) : Except Failure LuaState :=
  if (st.stack.length : Int) = (top : Int) + delta then .ok st
  else .error (.fatal "Lua stack error: guarded depth mismatch")

/-- `luaMC_safe_call` (`capi-safecall.c:185`): a guarded `luaMC_pcall`; on
failure the error is classified, displayed and popped by `handle_error`,
and the guard checks the net stack effect (`nresults - nargs - 1` on
success, `-nargs - 1` on failure). -/
def luaMC_safe_call (st : LuaState) (nargs nresults : Nat) (outcome : CallOutcome)
    (tb : String) (orc : DisplayOracle) : Except Failure (Bool × LuaState) :=
  let top := st.stack.length
  match luaMC_pcall st nargs nresults outcome tb with
  | .error f => .error f
  | .ok (true, st1) =>
    match unguard_by top (-1 - (nargs : Int) + (nresults : Int)) st1 with
    | .error f => .error f
    | .ok st3 => .ok (true, st3)
  | .ok (false, st1) =>
    match handle_error st1 orc with
    | .error f => .error f
    | .ok st2 =>
      match unguard_by top (-1 - (nargs : Int)) st2 with
      | .error f => .error f
      | .ok st3 => .ok (false, st3)

/-- Lua status codes (`lua.h`, Lua 5.1 values; the code only relies on them
being distinct and on `0` meaning success). -/
def LUA_ERRRUN : Nat := 2

/-- Syntax-error status of `luaL_loadfile`. -/
def LUA_ERRSYNTAX : Nat := 3

/-- File-open-error status of `luaL_loadfile`. -/
def LUA_ERRFILE : Nat := 6

/-- Outcome of `luaL_loadfile` (the filesystem and the parser are outside
the C under verification): the chunk loaded and was pushed, or the load
failed with the given error message pushed. -/
inductive LoadOutcome where
  | loaded
  | errFile (msg : String)
  | errSyntax (msg : String)
  deriving DecidableEq, Repr

/-- `luaMC_safe_dofile` (`capi-safecall.c:211`): build the file name, try to
load it; a load failure goes through `handle_error` and its own status code
is returned; a loaded chunk is run via `luaMC_safe_call (L, 0, 0)`, giving
status `0` or `LUA_ERRRUN`. -/
def luaMC_safe_dofile (st : LuaState) (loadResult : LoadOutcome)
    (runOutcome : CallOutcome) (tb : String) (orc : DisplayOracle) :
    Except Failure (Nat × LuaState) :=
  match loadResult with
  | .errFile msg =>
    match handle_error { st with stack := Value.str msg :: st.stack } orc with
    | .error f => .error f
    | .ok st1 => .ok (LUA_ERRFILE, st1)
  | .errSyntax msg =>
    match handle_error { st with stack := Value.str msg :: st.stack } orc with
    | .error f => .error f
    | .ok st1 => .ok (LUA_ERRSYNTAX, st1)
  | .loaded =>
    match luaMC_safe_call { st with stack := Value.func 0 :: st.stack } 0 0 runOutcome tb orc with
    | .error f => .error f
    | .ok (success, st1) => .ok (if success then 0 else LUA_ERRRUN, st1)

/-! ## The widget/proxy identity bridge (`lib/lua/ui-impl.c`) -/

/-- A C widget as the bridge sees it: its address (the opaque handle keyed
in `ui.weak`) and its `scripting_class_name` field. -/
structure Widget where
  addr : Nat
  scriptingClassName : Option String := none
  deriving DecidableEq, Repr

/-- `luaMC_search_table` (`capi.c:337`): scan a table and replace the
element searched for with the key under which it is stored as a *value*, or
`nil` when it is not. -/
def luaMC_search_table (t : List (Value × Value)) (e : Value) : Value :=
  match t.find? (fun p => p.2 == e) with
  | some p => p.1
  | none => .nil

/-- `luaUI_push_registered_widget` (`ui-impl.c:93`): fast lookup of
`ui.weak [w]`; when that misses and `search_hard` is set, fall back to the
linear value→key scan (counted in `hardSearches`).  Returns the Lua widget
when one was found (the C pushes it; every call site consumes it at once). -/
def luaUI_push_registered_widget (st : LuaState) (w : Widget) (searchHard : Bool) :
    Option Value × LuaState :=
  let v := tableGet st.uiWeak (.lightuserdata w.addr)
  if v = Value.nil ∧ searchHard = true then
    let found := luaMC_search_table st.uiWeak (.lightuserdata w.addr)
    let st' := { st with hardSearches := st.hardSearches + 1 }
    if found = Value.nil then (none, st') else (some found, st')
  else
    if v = Value.nil then (none, st) else (some v, st)

/-- `mc_lua_ui_meta_name` (`ui-impl.c:183`): the registry prefix for widget
metatables. -/
def mc_lua_ui_meta_name (widgetType : String) : String :=
  "ui." ++ widgetType

/-- `register_widget` (`ui-impl.c:44`): store the association in `ui.weak`
in both directions, `ui.weak [w] = LuaWidget` then `ui.weak [LuaWidget] = w`. -/
def register_widget (st : LuaState) (proxy : Value) (w : Widget) : LuaState :=
  { st with uiWeak :=
      tableSet (tableSet st.uiWeak (.lightuserdata w.addr) proxy) proxy (.lightuserdata w.addr) }

/-- `unregister_widget` (`ui-impl.c:70`): drop both `ui.weak` entries; the
Lua widget is located with "search hard" so the backward entry can be
removed even inside a GC finalization window. -/
def unregister_widget (st : LuaState) (w : Widget) : LuaState :=
  let (found, st0) := luaUI_push_registered_widget st w true
  let st1 :=
    match found with
    | some p => { st0 with uiWeak := tableSet st0.uiWeak p Value.nil }
    | none => st0
  { st1 with uiWeak := tableSet st1.uiWeak (.lightuserdata w.addr) Value.nil }

/-- `luaUI_push_widget_ex` (`ui-impl.c:204`): `NULL` becomes `nil`; an
already-registered widget is returned as is (fast lookup only); otherwise -
after the fatal sanity check that a non-abstract widget declares a scripting
class - a fresh proxy table is allocated, tagged with the class metatable,
populated with `__cwidget__` (and `__created_in_c__` when requested),
registered in both directions, and its `init` method is pinged. -/
def luaUI_push_widget_ex (st : LuaState) (w : Option Widget)
    (createdInC allowAbstract : Bool) : Except Failure (Value × LuaState) :=
  match w with
  | none => .ok (.nil, { st with stack := Value.nil :: st.stack })
  | some w =>
    match luaUI_push_registered_widget st w false with
    | (some p, st0) => .ok (p, { st0 with stack := p :: st0.stack })
    | (none, st0) =>
      if allowAbstract = false ∧ w.scriptingClassName = none then
        .error (.fatal "Internal error: w->scripting_class_name == NULL. Please report this bug.")
      else
        let id := st0.nextId
        let p := Value.table id
        let base := tableSet [] (.str "__cwidget__") (.lightuserdata w.addr)
        let td : TableData :=
          { fields := if createdInC
                      then tableSet base (.str "__created_in_c__") (.boolean true)
                      else base,
            metaName := mc_lua_ui_meta_name (w.scriptingClassName.getD "Widget"),
            gcEnabled := true }
        let st1 := { st0 with heap := (id, td) :: st0.heap, nextId := id + 1,
                              stack := p :: st0.stack }
        let st2 := register_widget st1 p w
        .ok (p, { st2 with events := st2.events ++ [.initPing id] })

/-- `luaUI_push_widget` (`ui-impl.c:279`), the easy version. -/
def luaUI_push_widget (st : LuaState) (w : Option Widget) (createdInC : Bool) :
    Except Failure (Value × LuaState) :=
  luaUI_push_widget_ex st w createdInC false

/-- `cb_ret_t`. -/
inductive CbRet where
  | msgHandled
  | msgNotHandled
  deriving DecidableEq, Repr

/-- Shared tail of `call_widget_method_ex`: `MSG_HANDLED` iff the single
value left on the stack is truthy, then optionally pop it. -/
def cwm_finish (st : LuaState) (widgetFound methodFound : Bool) (pop : Bool) :
    CbRet × Bool × Bool × LuaState :=
  let r := if toboolean (st.stack.headD .nil) then CbRet.msgHandled else CbRet.msgNotHandled
  let st' := if pop then { st with stack := st.stack.tail } else st
  (r, widgetFound, methodFound, st')

/-- `call_widget_method_ex` (`ui-impl.c:333`): resolve the Lua widget with
the *fast* lookup; fetch the named field; when it is a function, call it
through `luaMC_safe_call` with the widget as implicit first argument ahead
of the `nargs` staged arguments, expecting one result - on failure the
`method_found` flag is reset and `nil` is pushed in place of the result;
when the widget or the method is missing, the `nargs` staged arguments are
consumed and `nil` is pushed.  Returns
`(result, lua_widget_found, method_found, state)`. -/
def call_widget_method_ex (st : LuaState) (w : Widget) (methodName : String)
    (nargs : Nat) (outcome : CallOutcome) (tb : String) (orc : DisplayOracle)
    (pop : Bool) : Except Failure (CbRet × Bool × Bool × LuaState) :=
  match luaUI_push_registered_widget st w false with
  | (some proxy, st0) =>
    let m := lua_getfield st0.heap proxy methodName
    if m.isFunction then
      let stCall := { st0 with stack := st0.stack.take nargs ++ proxy :: m :: st0.stack.drop nargs }
      match luaMC_safe_call stCall (1 + nargs) 1 outcome tb orc with
      | .error f => .error f
      | .ok (true, st1) => .ok (cwm_finish st1 true true pop)
      | .ok (false, st1) =>
        .ok (cwm_finish { st1 with stack := Value.nil :: st1.stack } true false pop)
    else
      .ok (cwm_finish { st0 with stack := Value.nil :: st0.stack.drop nargs } true false pop)
  | (none, st0) =>
    .ok (cwm_finish { st0 with stack := Value.nil :: st0.stack.drop nargs } false false pop)

/-- `call_widget_method` (`ui-impl.c:290`), the easy version: popping, and
without the `lua_widget_found` out-parameter. -/
def call_widget_method (st : LuaState) (w : Widget) (methodName : String)
    (nargs : Nat) (outcome : CallOutcome) (tb : String) (orc : DisplayOracle) :
    Except Failure (CbRet × Bool × Bool × LuaState) :=
  call_widget_method_ex st w methodName nargs outcome tb orc true

/-- `LUAMC_UNGUARD` (`capi.h:239`): the exact-depth variant of the guard. -/
def unguard (top : Nat) (st : LuaState) : Except Failure LuaState :=
  if st.stack.length = top then .ok st
  else .error (.fatal "Lua stack error: guarded depth mismatch")

/-- `mc_lua_notify_on_widget_destruction` (`ui-impl.c:532`): locate the Lua
widget *searching hard*; when found, overwrite its `__cwidget__` handle with
the boolean `FALSE` marker, best-effort call its `on_destroy` method (any
script failure there is handled by `luaMC_safe_call`), pop it, and remove
both `ui.weak` entries; when no Lua counterpart exists this is a no-op.
The whole body is guarded. -/
def mc_lua_notify_on_widget_destruction (st : LuaState) (w : Widget)
    (destroyOutcome : CallOutcome) (tb : String) (orc : DisplayOracle) :
    Except Failure LuaState :=
  let top := st.stack.length
  match luaUI_push_registered_widget st w true with
  | (some proxy, st0) =>
    let st1 := { st0 with stack := proxy :: st0.stack,
                          heap := heap_rawsetfield st0.heap proxy (.str "__cwidget__") (.boolean false) }
    match call_widget_method st1 w "on_destroy" 0 destroyOutcome tb orc with
    | .error f => .error f
    | .ok (_, _, _, st2) =>
      let st3 := { st2 with stack := st2.stack.tail }
      let st4 := unregister_widget st3 w
      unguard top st4
  | (none, st0) => unguard top st0

/-- `luaUI_check_widget_ex` (`ui-impl.c:411`): the mandatory guard before
dereferencing a proxy.  Non-tables are a type error; a boolean `__cwidget__`
means "was valid, now destroyed" and is an argument error unless destroyed
widgets are allowed; a `nil` handle (the GC finalization window) is likewise
an error unless allowed, and `lua_touserdata` turns it into `NULL`; finally
an optional scripting-class check (`classOf` maps a widget address to its
`scripting_class_name`).  All errors here are raised Lua errors
(recoverable), never fatal aborts. -/
def luaUI_check_widget_ex (st : LuaState) (v : Value) (allowDestroyed : Bool)
    (scName : Option String) (classOf : Nat → Option String) :
    Except Failure (Option Nat) :=
  match v with
  | .table id =>
    match tableGet (heapGet st.heap id).fields (.str "__cwidget__") with
    | .boolean _ =>
      if allowDestroyed then .ok none
      else .error (.luaError (.str "A living widget was expected, but an already destroyed widget was provided"))
    | .nil =>
      if allowDestroyed then .ok none
      else .error (.luaError (.str "widget* expected"))
    | .lightuserdata a =>
      match scName with
      | some cls =>
        if classOf a = some cls then .ok (some a)
        else .error (.luaError (.str ("A widget of type '" ++ cls ++ "' was expected.")))
      | none => .ok (some a)
    | _ => .ok none
  | _ => .error (.luaError (.str "widget expected"))

/-- `luaUI_check_widget` (`ui-impl.c:405`), the easy version. -/
def luaUI_check_widget (st : LuaState) (v : Value) (classOf : Nat → Option String) :
    Except Failure (Option Nat) :=
  luaUI_check_widget_ex st v false none classOf

/-! ## Derived definitions used by the specifications -/

/-- What `handle_error` leaves in the first-error slot, as a function of the
slot and heap it starts from and the error value at the top of the stack. -/
def handle_error_fe (fe0 : Option String) (h : Heap) (e : Value) : Option String :=
  match fe0 with
  | some m => some m
  | none =>
    if luaMC_isabort h e then none
    else some ((tostringOpt e).getD "(error object is not a string)")

/-- The display events `handle_error` appends. -/
def handle_error_events (bg ui : Bool) (reg : List (String × Value)) (h : Heap)
    (e : Value) (orc : DisplayOracle) : List Event :=
  if luaMC_isabort h e then
    display_error_events bg ui reg h e "devel::display_abort" .abortFn orc
  else
    display_error_events bg ui reg h
      (if lua_isstring e then e else Value.str "(error object is not a string)")
      "devel::display_error" .errFn orc

/-- Events produced by the abort display path: the fancy abort callback, or
the `display_abort__simple` outputs (severity `D_NORMAL`, title `Abort`,
stderr tag `ABORT: `). -/
def isAbortPathEvent : Event → Bool
  | .fancyDisplay n _ => n == "devel::display_abort"
  | .messageBox .dNormal t _ => t == "Abort"
  | .stderrLine tag _ => tag == "ABORT: "
  | _ => false

/-- Events produced by the error display path carrying the message `m`: the
fancy error callback on the string `m`, or the `display_error__simple`
outputs (severity `D_ERROR`, title `Lua error`, stderr tag
`LUA EXCEPTION: `) showing `m`. -/
def isErrorPathEventFor (m : String) : Event → Bool
  | .fancyDisplay n v => n == "devel::display_error" && v == Value.str m
  | .messageBox .dError t m2 => t == "Lua error" && m2 == m
  | .stderrLine tag m2 => tag == "LUA EXCEPTION: " && m2 == m
  | _ => false

/-- Truth value of "this native call returned normally". -/
def isOkE {α : Type} : Except Failure α → Bool
  | .ok _ => true
  | .error _ => false

/-- Status code of a `luaMC_safe_dofile` run that returned normally. -/
def dofileStatus : Except Failure (Nat × LuaState) → Option Nat
  | .ok (c, _) => some c
  | .error _ => none

/-- First-error slot after a `luaMC_safe_dofile` run that returned
normally. -/
def dofileFirstError : Except Failure (Nat × LuaState) → Option (Option String)
  | .ok (_, st) => some st.firstError
  | .error _ => none

/-- A concrete state whose heap holds, at id 0, an abort table
`\x7b abort = true, message = "stop" \x7d`, with a function staged on the
stack and an empty First-Error Slot. -/
def abortStateEx : LuaState :=
  { stack := [Value.func 1],
    heap := [(0, { fields := [(Value.str "abort", Value.boolean true),
                              (Value.str "message", Value.str "stop")] })] }

/-- The `method_found` flag of a `call_widget_method_ex` run that returned
normally. -/
def methodFoundOf : Except Failure (CbRet × Bool × Bool × LuaState) → Option Bool
  | .ok (_, _, mf, _) => some mf
  | .error _ => none

/-- A concrete state with one live widget proxy (table 0 for address 1)
whose `on_click` field is a function. -/
def methodStateEx : LuaState :=
  { stack := [],
    heap := [(0, { fields := [(Value.str "__cwidget__", Value.lightuserdata 1),
                              (Value.str "on_click", Value.func 3)] })],
    uiWeak := [(Value.lightuserdata 1, Value.table 0), (Value.table 0, Value.lightuserdata 1)],
    uiReady := true }

/-- Concrete widget for the C4 witness run. -/
def c4w : Widget := ⟨5, some "Button"⟩

/-- State after creating the proxy of `c4w` in the empty state. -/
def c4st1 : LuaState :=
  match luaUI_push_widget_ex {} (some c4w) true false with
  | .ok (_, s) => s
  | .error _ => {}

/-- The proxy created for `c4w`. -/
def c4p : Value :=
  match luaUI_push_widget_ex {} (some c4w) true false with
  | .ok (v, _) => v
  | .error _ => .nil

/-- State after the destruction notification for `c4w`. -/
def c4st2 : LuaState :=
  match mc_lua_notify_on_widget_destruction c4st1 c4w (.ok []) "" {} with
  | .ok s => s
  | .error _ => c4st1

/-- State after re-creating a proxy for `c4w` post-destruction. -/
def c4st3 : LuaState :=
  match luaUI_push_widget_ex c4st2 (some c4w) true false with
  | .ok (_, s) => s
  | .error _ => c4st2

/-- The proxy created for `c4w` the second time. -/
def c4p' : Value :=
  match luaUI_push_widget_ex c4st2 (some c4w) true false with
  | .ok (v, _) => v
  | .error _ => .nil


/-! ## Basic lemmas on the table and heap model -/

@[simp] theorem tostringOpt_str (s : String) : tostringOpt (.str s) = some s := rfl

@[simp] theorem lua_isstring_str (s : String) : lua_isstring (.str s) = true := rfl

theorem tableGet_cons (a : Value × Value) (t : List (Value × Value)) (k : Value) :
    tableGet (a :: t) k = if a.1 = k then a.2 else tableGet t k := by
  by_cases h : a.1 = k
  · simp [tableGet, List.find?_cons, h]
  · simp [tableGet, List.find?_cons, h]

theorem erase_cons_self (a : Value × Value) (t : List (Value × Value)) (k : Value)
    (h : a.1 = k) :
    (a :: t).filter (fun p => !(p.1 == k)) = t.filter (fun p => !(p.1 == k)) := by
  simp [List.filter_cons, h]

theorem erase_cons_ne (a : Value × Value) (t : List (Value × Value)) (k : Value)
    (h : ¬ a.1 = k) :
    (a :: t).filter (fun p => !(p.1 == k)) = a :: t.filter (fun p => !(p.1 == k)) := by
  simp [List.filter_cons, h]

theorem tableGet_erase_self (t : List (Value × Value)) (k : Value) :
    tableGet (t.filter (fun p => !(p.1 == k))) k = Value.nil := by
  induction t with
  | nil => rfl
  | cons a t ih =>
    by_cases hk : a.1 = k
    · rw [erase_cons_self a t k hk]; exact ih
    · rw [erase_cons_ne a t k hk, tableGet_cons, if_neg hk]; exact ih

theorem tableGet_erase_ne (t : List (Value × Value)) (k k' : Value) (h : k' ≠ k) :
    tableGet (t.filter (fun p => !(p.1 == k))) k' = tableGet t k' := by
  induction t with
  | nil => rfl
  | cons a t ih =>
    by_cases hk : a.1 = k
    · have hk' : ¬ a.1 = k' := by rw [hk]; exact fun hh => h hh.symm
      rw [erase_cons_self a t k hk, tableGet_cons, if_neg hk']
      exact ih
    · rw [erase_cons_ne a t k hk, tableGet_cons, tableGet_cons]
      by_cases hk'' : a.1 = k'
      · rw [if_pos hk'', if_pos hk'']
      · rw [if_neg hk'', if_neg hk'']; exact ih

@[simp] theorem tableGet_tableSet_self (t : List (Value × Value)) (k v : Value) :
    tableGet (tableSet t k v) k = if v = Value.nil then Value.nil else v := by
  unfold tableSet
  by_cases hv : v = Value.nil
  · rw [if_pos hv, if_pos hv]; exact tableGet_erase_self t k
  · rw [if_neg hv, if_neg hv, tableGet_cons, if_pos rfl]

@[simp] theorem tableGet_tableSet_ne (t : List (Value × Value)) (k k' v : Value)
    (h : k' ≠ k) : tableGet (tableSet t k v) k' = tableGet t k' := by
  unfold tableSet
  by_cases hv : v = Value.nil
  · rw [if_pos hv]; exact tableGet_erase_ne t k k' h
  · have hk : ¬ (k, v).1 = k' := fun hh => h hh.symm
    rw [if_neg hv, tableGet_cons, if_neg hk]
    exact tableGet_erase_ne t k k' h

@[simp] theorem heapGet_cons_self (h : Heap) (i : Nat) (td : TableData) :
    heapGet ((i, td) :: h) i = td := by
  simp [heapGet, List.find?_cons]

@[simp] theorem heapGet_cons_ne (h : Heap) (i j : Nat) (td : TableData) (hij : j ≠ i) :
    heapGet ((i, td) :: h) j = heapGet h j := by
  have : ¬ i = j := fun hh => hij hh.symm
  simp [heapGet, List.find?_cons, this]

theorem heapGet_heapSetField_cons (h : Heap) (i : Nat) (td : TableData) (k v : Value) :
    heapGet (heapSetField ((i, td) :: h) i k v) i
      = { td with fields := tableSet td.fields k v } := by
  simp [heapSetField, heapGet, List.find?_cons]

theorem adjustResults_length (nresults : Nat) (rs : List Value) :
    (adjustResults nresults rs).length = nresults := by
  simp only [adjustResults, List.length_append, List.length_take, List.length_replicate]
  omega

/-! ## Characterization of the error-handling path -/

theorem handle_error_spec (st : LuaState) (orc : DisplayOracle) (e : Value)
    (r : List Value) (h : st.stack = e :: r) :
    handle_error st orc = .ok ({ st with
        stack := r,
        firstError := handle_error_fe st.firstError st.heap e,
        events := st.events ++
          handle_error_events st.weAreBackground st.uiReady st.registry st.heap e orc }) := by
  unfold handle_error handle_error_fe handle_error_events
  rw [h]
  cases hab : luaMC_isabort st.heap e with
  | true =>
    cases hfe : st.firstError <;>
      simp [hab, display_error, hfe]
  | false =>
    cases hs : lua_isstring e with
    | true =>
      cases hfe : st.firstError with
      | none =>
        rcases hts : tostringOpt e with _ | s
        · exact absurd hs (by simp [lua_isstring, hts])
        · simp [hab, hs, display_error, record_first_error, h, hfe, hts, lua_isstring]
      | some m =>
        simp [hab, hs, display_error, record_first_error, h, hfe]
    | false =>
      cases hfe : st.firstError with
      | none =>
        rcases hts : tostringOpt e with _ | s
        · simp [hab, hs, display_error, record_first_error, h, hfe, hts]
        · exact absurd hs (by simp [lua_isstring, hts])
      | some m =>
        simp [hab, hs, display_error, record_first_error, h, hfe]

theorem unguard_by_ok (top : Nat) (delta : Int) (st : LuaState)
    (h : (st.stack.length : Int) = (top : Int) + delta) :
    unguard_by top delta st = .ok st := by
  unfold unguard_by
  rw [if_pos h]

/-- Master lemma for `luaMC_safe_call`: with the function and its arguments
staged, it always returns (no propagating error, all guards pass), reports
the underlying call's outcome, and its exact effect on the state is as
computed here. -/
theorem luaMC_safe_call_spec (st : LuaState) (nargs nresults : Nat)
    (outcome : CallOutcome) (tb : String) (orc : DisplayOracle)
    (h : nargs + 1 ≤ st.stack.length) :
    luaMC_safe_call st nargs nresults outcome tb orc =
      match outcome with
      | .ok rs =>
        .ok (true, { st with
          stack := (adjustResults nresults rs).reverse ++ st.stack.drop (nargs + 1) })
      | .error e =>
        .ok (false, { st with
          stack := st.stack.drop (nargs + 1),
          firstError := handle_error_fe st.firstError st.heap (traceback_errfunc tb e),
          events := st.events ++ handle_error_events st.weAreBackground st.uiReady
            st.registry st.heap (traceback_errfunc tb e) orc }) := by
  unfold luaMC_safe_call luaMC_pcall
  rw [if_pos h]
  cases outcome with
  | ok rs =>
    dsimp only
    rw [unguard_by_ok _ _ _ (by
      simp only [List.length_append, List.length_reverse, adjustResults_length,
        List.length_drop]
      omega)]
  | error e =>
    dsimp only
    rw [handle_error_spec { st with
          stack := traceback_errfunc tb e :: st.stack.drop (nargs + 1) }
        orc (traceback_errfunc tb e) (st.stack.drop (nargs + 1)) rfl]
    dsimp only
    rw [unguard_by_ok _ _ _ (by
      simp only [List.length_drop]
      omega)]

/-- With a well-behaved simple-display environment, `display_error` either
ran the fancy callback or fell through to the simple display function. -/
theorem display_error_events_cases (bg ui : Bool) (reg : List (String × Value))
    (h : Heap) (eo : Value) (n : String) (sfn : SimpleDisplayFn) (orc : DisplayOracle)
    (hb : orc.simple = .ok ()) :
    display_error_events bg ui reg h eo n sfn orc = [Event.fancyDisplay n eo] ∨
    display_error_events bg ui reg h eo n sfn orc = simple_display_events sfn ui h eo := by
  unfold display_error_events
  by_cases h0 : (bg || !ui) = true
  · right; simp [h0, lua_pcall0, hb]
  · rcases hcb : luaMC_get_system_callback reg n with _ | cb
    · right; simp [h0, hcb, lua_pcall0, hb]
    · rcases hf : orc.fancy with e | u
      · right; simp [h0, hcb, hf, lua_pcall0, hb]
      · left; simp [h0, hcb, hf, lua_pcall0]

theorem display_error_events_errFn_str_length (bg ui : Bool)
    (reg : List (String × Value)) (h : Heap) (m : String) (orc : DisplayOracle)
    (hb : orc.simple = .ok ()) :
    (display_error_events bg ui reg h (.str m) "devel::display_error" .errFn orc).length
      = 1 := by
  rcases display_error_events_cases bg ui reg h (.str m) "devel::display_error" .errFn orc hb
    with hc | hc <;> rw [hc]
  · rfl
  · cases ui <;> rfl

theorem handle_error_events_str_length (bg ui : Bool) (reg : List (String × Value))
    (hp : Heap) (m : String) (orc : DisplayOracle) (hb : orc.simple = .ok ()) :
    (handle_error_events bg ui reg hp (.str m) orc).length = 1 := by
  unfold handle_error_events
  rw [if_neg (by simp [luaMC_isabort])]
  rw [if_pos (lua_isstring_str m)]
  exact display_error_events_errFn_str_length bg ui reg hp m orc hb

theorem handle_error_events_abort (bg ui : Bool) (reg : List (String × Value))
    (hp : Heap) (aid : Nat) (orc : DisplayOracle)
    (habort : toboolean (tableGet (heapGet hp aid).fields (.str "abort")) = true)
    (hmsg : tableGet (heapGet hp aid).fields (.str "message") = .str "stop")
    (hb : orc.simple = .ok ()) :
    handle_error_events bg ui reg hp (.table aid) orc ≠ [] ∧
    ∀ ev ∈ handle_error_events bg ui reg hp (.table aid) orc,
      isAbortPathEvent ev = true := by
  have hab : luaMC_isabort hp (.table aid) = true := by
    simp [luaMC_isabort, habort]
  unfold handle_error_events
  rw [if_pos hab]
  rcases display_error_events_cases bg ui reg hp (.table aid) "devel::display_abort"
      .abortFn orc hb with hc | hc <;> rw [hc]
  · refine ⟨by simp, ?_⟩
    intro ev hev
    simp only [List.mem_singleton] at hev
    subst hev
    rfl
  · unfold simple_display_events
    dsimp only
    rw [show lua_getfield hp (.table aid) "message" = Value.str "stop" by
      simp [lua_getfield, hmsg]]
    rw [tostringOpt_str]
    refine ⟨by cases ui <;> simp, ?_⟩
    intro ev hev
    cases ui <;> simp only [List.mem_singleton] at hev <;> subst hev <;> rfl

theorem handle_error_events_plain_str (bg ui : Bool) (reg : List (String × Value))
    (hp : Heap) (m : String) (orc : DisplayOracle) (hb : orc.simple = .ok ()) :
    handle_error_events bg ui reg hp (.str m) orc ≠ [] ∧
    ∀ ev ∈ handle_error_events bg ui reg hp (.str m) orc,
      isErrorPathEventFor m ev = true := by
  unfold handle_error_events
  rw [if_neg (by simp [luaMC_isabort])]
  rw [if_pos (lua_isstring_str m)]
  rcases display_error_events_cases bg ui reg hp (.str m) "devel::display_error"
      .errFn orc hb with hc | hc <;> rw [hc]
  · refine ⟨by simp, ?_⟩
    intro ev hev
    simp only [List.mem_singleton] at hev
    subst hev
    simp [isErrorPathEventFor]
  · unfold simple_display_events
    dsimp only
    rw [tostringOpt_str]
    refine ⟨by cases ui <;> simp, ?_⟩
    intro ev hev
    cases ui <;> simp only [List.mem_singleton] at hev <;> subst hev <;>
      simp [isErrorPathEventFor]

/-! ## Claims about the safe-invocation protocol -/

/-- Claim C1: every `luaMC_safe_call` with the function and its `nargs`
arguments staged returns, and the net operand-stack depth change is exactly
`nresults - nargs - 1` when it returns true and exactly `-nargs - 1` when
it returns false (function and arguments consumed either way, and on
failure the error value is already removed from the stack). -/
theorem safe_call_stack_balance (st : LuaState) (nargs nresults : Nat)
    (outcome : CallOutcome) (tb : String) (orc : DisplayOracle)
    (h : nargs + 1 ≤ st.stack.length) :
    ∃ success st',
      luaMC_safe_call st nargs nresults outcome tb orc = .ok (success, st') ∧
      (success = true →
        (st'.stack.length : Int) - (st.stack.length : Int)
          = (nresults : Int) - (nargs : Int) - 1) ∧
      (success = false →
        (st'.stack.length : Int) - (st.stack.length : Int) = -(nargs : Int) - 1) := by
  rw [luaMC_safe_call_spec st nargs nresults outcome tb orc h]
  cases outcome with
  | ok rs =>
    refine ⟨true, _, rfl, fun _ => ?_, fun hff => absurd hff (by decide)⟩
    simp only [List.length_append, List.length_reverse, adjustResults_length,
      List.length_drop]
    omega
  | error e =>
    refine ⟨false, _, rfl, fun hff => absurd hff (by decide), fun _ => ?_⟩
    simp only [List.length_drop]
    omega

/-- Witness for C1 at a concrete input (one argument, two results
requested, successful call). -/
theorem safe_call_stack_balance_witness :
    ∃ success st',
      luaMC_safe_call { stack := [Value.str "arg", Value.func 1] } 1 2
        (.ok [Value.boolean true, Value.num 7]) "" {} = .ok (success, st') ∧
      (success = true →
        (st'.stack.length : Int) - (([Value.str "arg", Value.func 1] : List Value).length : Int)
          = (2 : Int) - (1 : Int) - 1) ∧
      (success = false →
        (st'.stack.length : Int) - (([Value.str "arg", Value.func 1] : List Value).length : Int)
          = -(1 : Int) - 1) :=
  safe_call_stack_balance { stack := [Value.str "arg", Value.func 1] } 1 2
    (.ok [Value.boolean true, Value.num 7]) "" {} (by decide)

/-- Claim C2: script runtime errors and aborts are fully handled inside
`luaMC_safe_call` - it returns normally for every possible outcome of the
called function, and `handle_error` itself returns normally for every
outcome of the fancy display callback and of the simple display function
(their failures are caught and discarded), so no script error propagates
past the bridge boundary. -/
theorem safe_call_never_raises (st : LuaState) (nargs nresults : Nat)
    (outcome : CallOutcome) (tb : String) (orc : DisplayOracle)
    (st2 : LuaState) (orc2 : DisplayOracle) (e : Value) (r : List Value)
    (h : nargs + 1 ≤ st.stack.length) (h2 : st2.stack = e :: r) :
    isOkE (luaMC_safe_call st nargs nresults outcome tb orc) = true ∧
    isOkE (handle_error st2 orc2) = true := by
  constructor
  · rw [luaMC_safe_call_spec st nargs nresults outcome tb orc h]
    cases outcome <;> rfl
  · rw [handle_error_spec st2 orc2 e r h2]
    rfl

/-- Witness for C2 at a concrete input where the script call, the fancy
display callback and the simple display function all raise. -/
theorem safe_call_never_raises_witness :
    isOkE (luaMC_safe_call { stack := [Value.func 1] } 0 0 (.error (.str "boom")) "tb"
      { fancy := .error (.str "fancy crashed"), simple := .error (.str "simple crashed") })
      = true ∧
    isOkE (handle_error { stack := [Value.str "err"] }
      { fancy := .error (.str "fancy crashed"), simple := .error (.str "simple crashed") })
      = true :=
  safe_call_never_raises { stack := [Value.func 1] } 0 0 (.error (.str "boom")) "tb"
    { fancy := .error (.str "fancy crashed"), simple := .error (.str "simple crashed") }
    { stack := [Value.str "err"] }
    { fancy := .error (.str "fancy crashed"), simple := .error (.str "simple crashed") }
    (Value.str "err") [] (by decide) rfl

/-- Counterexample to claim C8 as stated: running a script file that cannot
be opened does return the distinct file-not-found status, but the
First-Error Slot is NOT left untouched - starting from an empty slot, the
load-failure message is recorded into it (the load error goes through
`handle_error`, which calls `record_first_error`). -/
theorem dofile_missing_records_first_error_cex :
    dofileStatus (luaMC_safe_dofile {} (.errFile "cannot open missing.script") (.ok [])
        "" {}) = some LUA_ERRFILE ∧
    dofileFirstError (luaMC_safe_dofile {} (.errFile "cannot open missing.script") (.ok [])
        "" {}) = some (some "cannot open missing.script") := by
  constructor <;> rfl

/-- Claim C8 (amended): `luaMC_safe_dofile` on an unreadable file returns
the distinct file-not-found status `LUA_ERRFILE`, but the load error is
routed through the standard error handler, which records the message into
the First-Error Slot when the slot is empty (and leaves a populated slot
unchanged). -/
theorem dofile_missing_file_status (st : LuaState) (msg : String)
    (runOutcome : CallOutcome) (tb : String) (orc : DisplayOracle) :
    ∃ st', luaMC_safe_dofile st (.errFile msg) runOutcome tb orc = .ok (LUA_ERRFILE, st') ∧
      st'.firstError = (match st.firstError with | some m => some m | none => some msg) ∧
      LUA_ERRFILE ≠ LUA_ERRSYNTAX ∧ LUA_ERRFILE ≠ 0 ∧ LUA_ERRFILE ≠ LUA_ERRRUN := by
  unfold luaMC_safe_dofile
  dsimp only
  rw [handle_error_spec { st with stack := Value.str msg :: st.stack } orc
    (Value.str msg) st.stack rfl]
  refine ⟨_, rfl, ?_, by decide, by decide, by decide⟩
  cases hfe : st.firstError <;> simp [handle_error_fe, hfe, luaMC_isabort]

/-- Claim C9: the First-Error Slot is written at most once
(`record_first_error` never changes an already-populated slot), and with one
error recorded, calling `mc_lua_replay_first_error` twice returns normally
both times, displays the error once per call, and leaves both the slot and
the stack unchanged. -/
theorem first_error_slot_replay (st stq : LuaState) (e : String)
    (orc1 orc2 : DisplayOracle) (h : st.firstError = some e)
    (hb1 : orc1.simple = .ok ()) (hb2 : orc2.simple = .ok ())
    (hq : stq.firstError.isSome = true) :
    ∃ st1 st2,
      mc_lua_replay_first_error st orc1 = .ok st1 ∧
      mc_lua_replay_first_error st1 orc2 = .ok st2 ∧
      st1.firstError = some e ∧ st2.firstError = some e ∧
      st1.events.length = st.events.length + 1 ∧
      st2.events.length = st.events.length + 2 ∧
      st1.stack = st.stack ∧ st2.stack = st.stack ∧
      (record_first_error stq).firstError = stq.firstError := by
  have hrec : (record_first_error stq).firstError = stq.firstError := by
    unfold record_first_error
    cases hstk : stq.stack with
    | nil => rfl
    | cons v t =>
      dsimp only
      have hcond : ¬ (stq.firstError = none ∧ lua_isstring v = true) := by
        rintro ⟨h1, -⟩
        rw [h1] at hq
        exact absurd hq (by decide)
      rw [if_neg hcond]
  have h1 : mc_lua_replay_first_error st orc1
      = handle_error { st with stack := Value.str e :: st.stack } orc1 := by
    unfold mc_lua_replay_first_error
    rw [h]
  rw [handle_error_spec { st with stack := Value.str e :: st.stack } orc1
    (Value.str e) st.stack rfl] at h1
  set st1 : LuaState := { st with
    stack := st.stack,
    firstError := handle_error_fe st.firstError st.heap (Value.str e),
    events := st.events ++
      handle_error_events st.weAreBackground st.uiReady st.registry st.heap
        (Value.str e) orc1 } with hst1
  have hfe1 : st1.firstError = some e := by
    simp [hst1, handle_error_fe, h]
  have h2 : mc_lua_replay_first_error st1 orc2
      = handle_error { st1 with stack := Value.str e :: st1.stack } orc2 := by
    unfold mc_lua_replay_first_error
    rw [hfe1]
  rw [handle_error_spec { st1 with stack := Value.str e :: st1.stack } orc2
    (Value.str e) st1.stack rfl] at h2
  refine ⟨st1, _, h1, h2, hfe1, ?_, ?_, ?_, rfl, rfl, hrec⟩
  · simp [handle_error_fe, h, luaMC_isabort]
  · simp [hst1, List.length_append,
      handle_error_events_str_length _ _ _ _ _ orc1 hb1]
  · simp [hst1, List.length_append,
      handle_error_events_str_length _ _ _ _ _ orc1 hb1,
      handle_error_events_str_length _ _ _ _ _ orc2 hb2]

/-- Claim C3: for failed safe calls, an error value that is a table
carrying the abort marker (here with `message = "stop"`) is displayed via
the abort path and never populates the First-Error Slot, while a plain
string error `"boom"` populates the slot when it is empty and is displayed
via the error path with the call-trace appended. -/
theorem abort_vs_error_classification (st : LuaState) (nargs : Nat) (aid : Nat)
    (tb : String) (orc orc2 : DisplayOracle)
    (hstack : nargs + 1 ≤ st.stack.length)
    (habort : toboolean (tableGet (heapGet st.heap aid).fields (.str "abort")) = true)
    (hmsg : tableGet (heapGet st.heap aid).fields (.str "message") = .str "stop")
    (hempty : st.firstError = none)
    (hb : orc.simple = .ok ()) (hb2 : orc2.simple = .ok ()) :
    (∃ st', luaMC_safe_call st nargs 0 (.error (.table aid)) tb orc = .ok (false, st') ∧
      st'.firstError = none ∧
      st'.events.drop st.events.length ≠ [] ∧
      (∀ ev ∈ st'.events.drop st.events.length, isAbortPathEvent ev = true)) ∧
    (∃ st', luaMC_safe_call st nargs 0 (.error (.str "boom")) tb orc2 = .ok (false, st') ∧
      st'.firstError = some ("boom" ++ tb) ∧
      st'.events.drop st.events.length ≠ [] ∧
      (∀ ev ∈ st'.events.drop st.events.length,
        isErrorPathEventFor ("boom" ++ tb) ev = true)) := by
  constructor
  · rw [luaMC_safe_call_spec st nargs 0 (.error (.table aid)) tb orc hstack]
    dsimp only
    rw [show traceback_errfunc tb (Value.table aid) = Value.table aid from rfl]
    refine ⟨_, rfl, ?_, ?_, ?_⟩
    · simp [handle_error_fe, hempty, luaMC_isabort, habort]
    · dsimp only
      rw [List.drop_left]
      exact (handle_error_events_abort st.weAreBackground st.uiReady st.registry st.heap
        aid orc habort hmsg hb).1
    · intro ev hev
      dsimp only at hev
      rw [List.drop_left] at hev
      exact (handle_error_events_abort st.weAreBackground st.uiReady st.registry st.heap
        aid orc habort hmsg hb).2 ev hev
  · rw [luaMC_safe_call_spec st nargs 0 (.error (.str "boom")) tb orc2 hstack]
    dsimp only
    rw [show traceback_errfunc tb (Value.str "boom") = Value.str ("boom" ++ tb) from rfl]
    refine ⟨_, rfl, ?_, ?_, ?_⟩
    · simp [handle_error_fe, hempty, luaMC_isabort]
    · dsimp only
      rw [List.drop_left]
      exact (handle_error_events_plain_str st.weAreBackground st.uiReady st.registry
        st.heap ("boom" ++ tb) orc2 hb2).1
    · intro ev hev
      dsimp only at hev
      rw [List.drop_left] at hev
      exact (handle_error_events_plain_str st.weAreBackground st.uiReady st.registry
        st.heap ("boom" ++ tb) orc2 hb2).2 ev hev

/-- Witness for C3 at the concrete abort table of `abortStateEx`. -/
theorem abort_vs_error_classification_witness :
    (∃ st', luaMC_safe_call abortStateEx 0 0 (.error (.table 0)) "TB" {} = .ok (false, st') ∧
      st'.firstError = none ∧
      st'.events.drop abortStateEx.events.length ≠ [] ∧
      (∀ ev ∈ st'.events.drop abortStateEx.events.length, isAbortPathEvent ev = true)) ∧
    (∃ st', luaMC_safe_call abortStateEx 0 0 (.error (.str "boom")) "TB" {} = .ok (false, st') ∧
      st'.firstError = some ("boom" ++ "TB") ∧
      st'.events.drop abortStateEx.events.length ≠ [] ∧
      (∀ ev ∈ st'.events.drop abortStateEx.events.length,
        isErrorPathEventFor ("boom" ++ "TB") ev = true)) :=
  abort_vs_error_classification abortStateEx 0 0 "TB" {} {} (by decide) (by decide)
    (by decide) rfl rfl rfl

/-! ## Lemmas and claims about the identity bridge -/

/-- The fast (non-searching) lookup is exactly one read of `ui.weak` and
leaves the state - in particular the `hardSearches` counter - untouched. -/
theorem push_registered_fast (st : LuaState) (w : Widget) :
    luaUI_push_registered_widget st w false
      = (if tableGet st.uiWeak (.lightuserdata w.addr) = Value.nil then none
         else some (tableGet st.uiWeak (.lightuserdata w.addr)), st) := by
  unfold luaUI_push_registered_widget
  rw [if_neg (by simp)]
  by_cases hv : tableGet st.uiWeak (.lightuserdata w.addr) = Value.nil
  · rw [if_pos hv, if_pos hv]
  · rw [if_neg hv, if_neg hv]

/-- The searching lookup, when the fast probe already hits, also does not
scan. -/
theorem push_registered_hard_hit (st : LuaState) (w : Widget) (p : Value)
    (hp : tableGet st.uiWeak (.lightuserdata w.addr) = p) (hpn : p ≠ Value.nil) :
    luaUI_push_registered_widget st w true = (some p, st) := by
  unfold luaUI_push_registered_widget
  rw [hp]
  rw [if_neg (by rintro ⟨h1, -⟩; exact hpn h1)]
  rw [if_neg hpn]

theorem unguard_ok (top : Nat) (st : LuaState) (h : st.stack.length = top) :
    unguard top st = .ok st := by
  unfold unguard
  rw [if_pos h]

/-- Claim C10: for a `NULL` native reference, `luaUI_push_widget_ex` pushes
`nil` and returns, creating no proxy, leaving the Weak Identity Table (and
everything else but the stack) untouched, and raising no error - regardless
of the `created_in_c` and `allow_abstract` flags. -/
theorem push_null_widget (st : LuaState) (createdInC allowAbstract : Bool) :
    luaUI_push_widget_ex st none createdInC allowAbstract
      = .ok (.nil, { st with stack := Value.nil :: st.stack }) := rfl

/-- Claim C6: two successive `luaUI_push_widget_ex` calls for the same
native reference, with nothing in between, hand back the identical proxy
object, and the second call changes nothing but pushing that proxy again -
in particular it allocates no new table (`heap` and `nextId` are those of
the state the first call produced). -/
theorem proxy_lookup_idempotent (st st1 : LuaState) (w : Widget)
    (createdInC allowAbstract : Bool) (v : Value)
    (h : luaUI_push_widget_ex st (some w) createdInC allowAbstract = .ok (v, st1)) :
    luaUI_push_widget_ex st1 (some w) createdInC allowAbstract
      = .ok (v, { st1 with stack := v :: st1.stack }) := by
  unfold luaUI_push_widget_ex at h ⊢
  dsimp only at h ⊢
  rw [push_registered_fast] at h
  by_cases hv : tableGet st.uiWeak (.lightuserdata w.addr) = Value.nil
  · rw [if_pos hv] at h
    dsimp only at h
    by_cases hfat : allowAbstract = false ∧ w.scriptingClassName = none
    · rw [if_pos hfat] at h
      exact absurd h (by simp)
    · rw [if_neg hfat] at h
      unfold register_widget at h
      dsimp only at h
      simp only [Except.ok.injEq, Prod.mk.injEq] at h
      obtain ⟨hv1, hst1⟩ := h
      subst hv1
      subst hst1
      rw [push_registered_fast]
      rw [if_neg (by
        dsimp only
        rw [tableGet_tableSet_ne _ _ _ _ (by simp)]
        rw [tableGet_tableSet_self]
        simp)]
      dsimp only
      rw [show tableGet
            (tableSet (tableSet st.uiWeak (Value.lightuserdata w.addr) (Value.table st.nextId))
              (Value.table st.nextId) (Value.lightuserdata w.addr))
            (Value.lightuserdata w.addr) = Value.table st.nextId by
        rw [tableGet_tableSet_ne _ _ _ _ (by simp)]
        rw [tableGet_tableSet_self]
        simp]
  · rw [if_neg hv] at h
    dsimp only at h
    simp only [Except.ok.injEq, Prod.mk.injEq] at h
    obtain ⟨hv1, hst1⟩ := h
    subst hv1
    subst hst1
    rw [push_registered_fast]
    rw [if_neg hv]

/-- Witness for C6 at a concrete input: first call creates the proxy, the
second returns it unchanged. -/
theorem proxy_lookup_idempotent_witness :
    luaUI_push_widget_ex
        (match luaUI_push_widget_ex ({} : LuaState) (some ⟨7, some "Button"⟩) true false with
         | .ok (_, s) => s
         | .error _ => {})
        (some ⟨7, some "Button"⟩) true false
      = .ok (Value.table 0, { (match luaUI_push_widget_ex ({} : LuaState)
            (some ⟨7, some "Button"⟩) true false with
          | .ok (_, s) => s
          | .error _ => {}) with
          stack := Value.table 0 ::
            (match luaUI_push_widget_ex ({} : LuaState) (some ⟨7, some "Button"⟩) true false with
             | .ok (_, s) => s
             | .error _ => {}).stack }) :=
  proxy_lookup_idempotent {} _ ⟨7, some "Button"⟩ true false (Value.table 0) (by decide)

theorem cwm_finish_hardSearches (st : LuaState) (wf mf pop : Bool) :
    (cwm_finish st wf mf pop).2.2.2.hardSearches = st.hardSearches := by
  unfold cwm_finish
  cases pop <;> rfl

/-- Counterexample to claim C7 as stated: the proxy exists and its
`on_click` field is function-valued, the underlying `safe_call` fails, and
`call_widget_method_ex` reports `method_found = false` - not `true` as the
claim demands (the C resets the flag on `safe_call` failure:
`SET_FLAG (method_found, FALSE)` in `ui-impl.c:372`). -/
theorem call_method_failed_reports_not_found :
    (lua_getfield methodStateEx.heap (Value.table 0) "on_click").isFunction = true ∧
    methodFoundOf (call_widget_method_ex methodStateEx ⟨1, some "Button"⟩ "on_click" 0
      (.error (Value.str "boom")) "TB" {} true) = some false := by
  constructor <;> rfl

/-- Claim C7 (amended): when the proxy exists, has a function-valued field
named `method_name`, and the underlying `safe_call` fails, the method call
reports "not handled" - and, unlike the claim's wording, the `method_found`
out-flag is reset to `false` as well (the widget-found flag stays `true`). -/
theorem call_method_failure_flags (st : LuaState) (w : Widget) (mname : String)
    (nargs : Nat) (e : Value) (tb : String) (orc : DisplayOracle) (pop : Bool)
    (p : Value) (hn : nargs ≤ st.stack.length)
    (hp : tableGet st.uiWeak (.lightuserdata w.addr) = p) (hpn : p ≠ Value.nil)
    (hm : (lua_getfield st.heap p mname).isFunction = true) :
    ∃ st', call_widget_method_ex st w mname nargs (.error e) tb orc pop
      = .ok (.msgNotHandled, true, false, st') := by
  unfold call_widget_method_ex
  rw [push_registered_fast, hp]
  rw [if_neg hpn]
  dsimp only
  rw [if_pos hm]
  have hlen : (1 + nargs) + 1 ≤
      (st.stack.take nargs ++ p :: lua_getfield st.heap p mname :: st.stack.drop nargs).length := by
    simp only [List.length_append, List.length_take, List.length_cons, List.length_drop]
    omega
  rw [luaMC_safe_call_spec _ (1 + nargs) 1 (.error e) tb orc hlen]
  exact ⟨_, rfl⟩

/-- Witness for the amended C7 at the concrete state `methodStateEx`. -/
theorem call_method_failure_flags_witness :
    ∃ st', call_widget_method_ex methodStateEx ⟨1, some "Button"⟩ "on_click" 0
        (.error (Value.str "boom")) "TB" {} true = .ok (.msgNotHandled, true, false, st') :=
  call_method_failure_flags methodStateEx ⟨1, some "Button"⟩ "on_click" 0
    (Value.str "boom") "TB" {} true (Value.table 0) (by decide) (by decide) (by decide)
    (by decide)

/-- Claim C5: the hot paths - proxy lookup/creation and method dispatch -
only ever use the fast O(1) forward probe of the Weak Identity Table: they
leave the `hardSearches` scan counter untouched for every input and every
call outcome; the linear value-to-key "search hard" scan runs (bumping the
counter) in the searching lookup mode that only `notify_destroyed` (and its
`unregister_widget`) requests, here exhibited on a fast-probe miss. -/
theorem hot_paths_stay_fast (st stm stq : LuaState) (w wm wq : Widget)
    (createdInC allowAbstract : Bool) (v : Value) (st' : LuaState)
    (mname : String) (n : Nat) (o : CallOutcome) (tb : String) (orc : DisplayOracle)
    (pop : Bool) (r : CbRet) (f1 f2 : Bool) (stm' : LuaState)
    (h1 : luaUI_push_widget_ex st (some w) createdInC allowAbstract = .ok (v, st'))
    (h2 : call_widget_method_ex stm wm mname n o tb orc pop = .ok (r, f1, f2, stm'))
    (h3 : tableGet stq.uiWeak (.lightuserdata wq.addr) = Value.nil) :
    st'.hardSearches = st.hardSearches ∧
    stm'.hardSearches = stm.hardSearches ∧
    (luaUI_push_registered_widget stq wq true).2.hardSearches = stq.hardSearches + 1 := by
  refine ⟨?_, ?_, ?_⟩
  · unfold luaUI_push_widget_ex at h1
    dsimp only at h1
    rw [push_registered_fast] at h1
    by_cases hv : tableGet st.uiWeak (.lightuserdata w.addr) = Value.nil
    · rw [if_pos hv] at h1
      dsimp only at h1
      by_cases hfat : allowAbstract = false ∧ w.scriptingClassName = none
      · rw [if_pos hfat] at h1
        exact absurd h1 (by simp)
      · rw [if_neg hfat] at h1
        unfold register_widget at h1
        dsimp only at h1
        simp only [Except.ok.injEq, Prod.mk.injEq] at h1
        obtain ⟨-, hst⟩ := h1
        rw [← hst]
    · rw [if_neg hv] at h1
      dsimp only at h1
      simp only [Except.ok.injEq, Prod.mk.injEq] at h1
      obtain ⟨-, hst⟩ := h1
      rw [← hst]
  · unfold call_widget_method_ex at h2
    rw [push_registered_fast] at h2
    by_cases hv : tableGet stm.uiWeak (.lightuserdata wm.addr) = Value.nil
    · rw [if_pos hv] at h2
      dsimp only at h2
      simp only [Except.ok.injEq] at h2
      have h4 := congrArg (fun q : CbRet × Bool × Bool × LuaState => q.2.2.2) h2
      dsimp only at h4
      rw [← h4, cwm_finish_hardSearches]
    · rw [if_neg hv] at h2
      dsimp only at h2
      by_cases hfn : (lua_getfield stm.heap
          (tableGet stm.uiWeak (.lightuserdata wm.addr)) mname).isFunction = true
      · rw [if_pos hfn] at h2
        by_cases hlen : (1 + n) + 1 ≤
            (stm.stack.take n ++ tableGet stm.uiWeak (.lightuserdata wm.addr) ::
              lua_getfield stm.heap (tableGet stm.uiWeak (.lightuserdata wm.addr)) mname ::
              stm.stack.drop n).length
        · rw [luaMC_safe_call_spec _ (1 + n) 1 o tb orc hlen] at h2
          cases o with
          | ok rs =>
            dsimp only at h2
            simp only [Except.ok.injEq] at h2
            have h4 := congrArg (fun q : CbRet × Bool × Bool × LuaState => q.2.2.2) h2
            dsimp only at h4
            rw [← h4, cwm_finish_hardSearches]
          | error e =>
            simp only [Except.ok.injEq] at h2
            have h4 := congrArg (fun q : CbRet × Bool × Bool × LuaState => q.2.2.2) h2
            dsimp only at h4
            rw [← h4, cwm_finish_hardSearches]
        · unfold luaMC_safe_call luaMC_pcall at h2
          rw [if_neg hlen] at h2
          exact absurd h2 (by simp)
      · rw [if_neg hfn] at h2
        simp only [Except.ok.injEq] at h2
        have h4 := congrArg (fun q : CbRet × Bool × Bool × LuaState => q.2.2.2) h2
        dsimp only at h4
        rw [← h4, cwm_finish_hardSearches]
  · unfold luaUI_push_registered_widget
    dsimp only
    rw [h3]
    rw [if_pos ⟨rfl, rfl⟩]
    by_cases hf : luaMC_search_table stq.uiWeak (.lightuserdata wq.addr) = Value.nil
    · rw [if_pos hf]
    · rw [if_neg hf]

/-- Witness for C5: a proxy creation, a method dispatch on a missing
method, and a hard lookup on an empty Weak Identity Table. -/
theorem hot_paths_stay_fast_witness :
    (match luaUI_push_widget_ex ({} : LuaState) (some ⟨7, some "Button"⟩) true false with
      | .ok (_, s) => s
      | .error _ => ({} : LuaState)).hardSearches = ({} : LuaState).hardSearches ∧
    (match call_widget_method_ex methodStateEx ⟨1, some "Button"⟩ "on_click" 0
        (.ok [Value.boolean true]) "" {} true with
      | .ok (_, _, _, s) => s
      | .error _ => methodStateEx).hardSearches = methodStateEx.hardSearches ∧
    (luaUI_push_registered_widget ({} : LuaState) ⟨3, none⟩ true).2.hardSearches
      = ({} : LuaState).hardSearches + 1 := by
  refine hot_paths_stay_fast {} methodStateEx {} ⟨7, some "Button"⟩ ⟨1, some "Button"⟩
    ⟨3, none⟩ true false (Value.table 0) _ "on_click" 0 (.ok [Value.boolean true]) "" {} true
    .msgHandled true true _ ?_ ?_ (by decide)
  · rfl
  · rfl

/-- Claim C4: after `notify_destroyed` on a reference with a live proxy, a
subsequent `get_or_create_proxy` allocates a new, distinct proxy (the old
table identity is not reused), and `check_destroyed` on the old proxy
reports the "already destroyed" Lua error - a recoverable raised error, not
a crash and not a dereference of the stale handle. -/
theorem destruction_clears_identity (st st1 st2 st3 : LuaState) (w : Widget)
    (cic aa cic2 aa2 : Bool) (p p' : Value) (o : CallOutcome) (tb : String)
    (orc : DisplayOracle) (classOf : Nat → Option String)
    (hmiss : tableGet st.uiWeak (.lightuserdata w.addr) = Value.nil)
    (hpush : luaUI_push_widget_ex st (some w) cic aa = .ok (p, st1))
    (hnotify : mc_lua_notify_on_widget_destruction st1 w o tb orc = .ok st2)
    (hpush2 : luaUI_push_widget_ex st2 (some w) cic2 aa2 = .ok (p', st3)) :
    p' ≠ p ∧
    luaUI_check_widget_ex st3 p false none classOf
      = .error (.luaError (.str "A living widget was expected, but an already destroyed widget was provided")) := by
  -- Step A: the first push misses the fast lookup, so it creates the proxy.
  unfold luaUI_push_widget_ex at hpush
  dsimp only at hpush
  rw [push_registered_fast] at hpush
  rw [if_pos hmiss] at hpush
  dsimp only at hpush
  by_cases hfat : aa = false ∧ w.scriptingClassName = none
  · rw [if_pos hfat] at hpush
    exact absurd hpush (by simp)
  rw [if_neg hfat] at hpush
  unfold register_widget at hpush
  dsimp only at hpush
  simp only [Except.ok.injEq, Prod.mk.injEq] at hpush
  obtain ⟨hp, hst1⟩ := hpush
  subst hp
  have hu : st1.uiWeak
      = tableSet (tableSet st.uiWeak (Value.lightuserdata w.addr) (Value.table st.nextId))
          (Value.table st.nextId) (Value.lightuserdata w.addr) := by
    rw [← hst1]
  have hh : st1.heap
      = (st.nextId,
          { fields := if cic = true then
              tableSet (tableSet [] (Value.str "__cwidget__") (Value.lightuserdata w.addr))
                (Value.str "__created_in_c__") (Value.boolean true)
            else tableSet [] (Value.str "__cwidget__") (Value.lightuserdata w.addr),
            metaName := mc_lua_ui_meta_name (w.scriptingClassName.getD "Widget"),
            gcEnabled := true }) :: st.heap := by
    rw [← hst1]
  have hn1 : st1.nextId = st.nextId + 1 := by rw [← hst1]
  have hpnil : (Value.table st.nextId) ≠ Value.nil := by simp
  have hW : tableGet st1.uiWeak (Value.lightuserdata w.addr) = Value.table st.nextId := by
    rw [hu]
    rw [tableGet_tableSet_ne _ _ _ _ (by simp)]
    rw [tableGet_tableSet_self]
    simp
  -- Step B: the destruction notification finds the proxy (searching hard),
  -- marks it destroyed, pings on_destroy (absent here) and unregisters it.
  unfold mc_lua_notify_on_widget_destruction at hnotify
  rw [push_registered_hard_hit st1 w (Value.table st.nextId) hW hpnil] at hnotify
  dsimp only at hnotify
  set St1b : LuaState :=
    { st1 with
      stack := Value.table st.nextId :: st1.stack,
      heap := heap_rawsetfield st1.heap (Value.table st.nextId)
        (Value.str "__cwidget__") (Value.boolean false) } with hSt1b
  have hgf : lua_getfield St1b.heap (Value.table st.nextId) "on_destroy" = Value.nil := by
    show lua_getfield (heap_rawsetfield st1.heap (Value.table st.nextId)
      (Value.str "__cwidget__") (Value.boolean false)) (Value.table st.nextId) "on_destroy"
      = Value.nil
    unfold heap_rawsetfield lua_getfield
    dsimp only
    rw [hh]
    rw [heapGet_heapSetField_cons]
    dsimp only
    rw [tableGet_tableSet_ne _ _ _ _ (by decide)]
    cases cic with
    | true =>
      rw [if_pos rfl]
      rw [tableGet_tableSet_ne _ _ _ _ (by decide)]
      rw [tableGet_tableSet_ne _ _ _ _ (by decide)]
      rfl
    | false =>
      rw [if_neg (by decide)]
      rw [tableGet_tableSet_ne _ _ _ _ (by decide)]
      rfl
  have hcall : call_widget_method St1b w "on_destroy" 0 o tb orc
      = .ok (.msgNotHandled, true, false, St1b) := by
    unfold call_widget_method call_widget_method_ex
    rw [push_registered_fast]
    rw [show tableGet St1b.uiWeak (Value.lightuserdata w.addr) = Value.table st.nextId
      from hW]
    rw [if_neg hpnil]
    dsimp only
    rw [hgf]
    rw [if_neg (by decide : ¬ (Value.nil.isFunction = true))]
    rfl
  rw [hcall] at hnotify
  dsimp only at hnotify
  set St3n : LuaState := { St1b with stack := St1b.stack.tail } with hSt3n
  have hW3 : tableGet St3n.uiWeak (Value.lightuserdata w.addr) = Value.table st.nextId := hW
  unfold unregister_widget at hnotify
  rw [push_registered_hard_hit St3n w (Value.table st.nextId) hW3 hpnil] at hnotify
  dsimp only at hnotify
  unfold unguard at hnotify
  dsimp only at hnotify
  simp only [List.tail_cons] at hnotify
  simp only [if_true] at hnotify
  simp only [Except.ok.injEq] at hnotify
  subst hnotify
  -- Step C: the second push misses (both ui.weak entries were removed), so
  -- it allocates a fresh proxy table with the next id.
  unfold luaUI_push_widget_ex at hpush2
  dsimp only at hpush2
  rw [push_registered_fast] at hpush2
  rw [show tableGet
        (tableSet (tableSet st1.uiWeak (Value.table st.nextId) Value.nil)
          (Value.lightuserdata w.addr) Value.nil)
        (Value.lightuserdata w.addr) = Value.nil from by
    rw [tableGet_tableSet_self]
    simp] at hpush2
  rw [if_pos rfl] at hpush2
  dsimp only at hpush2
  by_cases hfat2 : aa2 = false ∧ w.scriptingClassName = none
  · rw [if_pos hfat2] at hpush2
    exact absurd hpush2 (by simp)
  rw [if_neg hfat2] at hpush2
  unfold register_widget at hpush2
  dsimp only at hpush2
  simp only [Except.ok.injEq, Prod.mk.injEq] at hpush2
  obtain ⟨hp2, hst3⟩ := hpush2
  subst hp2
  constructor
  · -- Step D: the new proxy has id st.nextId + 1, distinct from the old.
    simp only [ne_eq, Value.table.injEq, hn1]
    omega
  · -- Step E: the old proxy's __cwidget__ handle is the boolean marker, so
    -- the check reports the destroyed error.
    rw [← hst3]
    unfold luaUI_check_widget_ex
    dsimp only
    rw [heapGet_cons_ne _ _ _ _ (show st.nextId ≠ st1.nextId by omega)]
    rw [show heap_rawsetfield st1.heap (Value.table st.nextId)
          (Value.str "__cwidget__") (Value.boolean false)
        = heapSetField st1.heap st.nextId (Value.str "__cwidget__") (Value.boolean false)
        from rfl]
    rw [hh]
    rw [heapGet_heapSetField_cons]
    dsimp only
    rw [tableGet_tableSet_self]
    rw [if_neg (by decide : ¬ (Value.boolean false = Value.nil))]
    rfl

/-- Witness for C4 on the concrete create / destroy / re-create run of
`c4w`. -/
theorem destruction_clears_identity_witness :
    c4p' ≠ c4p ∧
    luaUI_check_widget_ex c4st3 c4p false none (fun _ => none)
      = .error (.luaError (.str "A living widget was expected, but an already destroyed widget was provided")) :=
  destruction_clears_identity {} c4st1 c4st2 c4st3 c4w true false true false c4p c4p'
    (.ok []) "" {} (fun _ => none) (by decide) (by decide) (by decide) (by decide)

/-- Witness for C9 at a concrete input: slot holding "boom", replayed
twice. -/
theorem first_error_slot_replay_witness :
    ∃ st1 st2,
      mc_lua_replay_first_error { firstError := some "boom" } {} = .ok st1 ∧
      mc_lua_replay_first_error st1 {} = .ok st2 ∧
      st1.firstError = some "boom" ∧ st2.firstError = some "boom" ∧
      st1.events.length = (LuaState.events { firstError := some "boom" }).length + 1 ∧
      st2.events.length = (LuaState.events { firstError := some "boom" }).length + 2 ∧
      st1.stack = (LuaState.stack { firstError := some "boom" }) ∧
      st2.stack = (LuaState.stack { firstError := some "boom" }) ∧
      (record_first_error { firstError := some "x", stack := [Value.num 3] }).firstError
        = LuaState.firstError { firstError := some "x", stack := [Value.num 3] } :=
  first_error_slot_replay { firstError := some "boom" }
    { firstError := some "x", stack := [Value.num 3] } "boom" {} {} rfl rfl rfl rfl

end McLua
